import Mathlib

/-!
Verification of `src/src/types/CodepointWidthDetector_triegen.py`.

The Python program classifies every Unicode codepoint into a packed 8-bit
value combining a grapheme-cluster-break category (bits 0-3) and a character
width category (bits 6-7), stores the classification in an ICU code point
trie, and serializes the trie.  This file gives a shallow embedding of the
classification pipeline and of the trie submission/lookup semantics, and
proves the spec's claims about them.
-/

namespace CodepointWidthDetector

/-- `ClusterBreak` enum, lines 130-143 of the source. -/
inductive ClusterBreak where
  | OTHER
  | CONTROL
  | EXTEND
  | PREPEND
  | ZERO_WIDTH_JOINER
  | REGIONAL_INDICATOR
  | HANGUL_L
  | HANGUL_V
  | HANGUL_T
  | HANGUL_LV
  | HANGUL_LVT
  | CONJUNCT_LINKER
  | EXTENDED_PICTOGRAPHIC
  deriving DecidableEq, Repr

/-- Numeric value of each `ClusterBreak` member, as in the Python enum. -/
def ClusterBreak.value : ClusterBreak → Nat
  | .OTHER => 0
  | .CONTROL => 1
  | .EXTEND => 2
  | .PREPEND => 3
  | .ZERO_WIDTH_JOINER => 4
  | .REGIONAL_INDICATOR => 5
  | .HANGUL_L => 6
  | .HANGUL_V => 7
  | .HANGUL_T => 8
  | .HANGUL_LV => 9
  | .HANGUL_LVT => 10
  | .CONJUNCT_LINKER => 11
  | .EXTENDED_PICTOGRAPHIC => 12

/-- `CharacterWidth` enum, lines 146-150 of the source. -/
inductive CharacterWidth where
  | ZeroWidth
  | Narrow
  | Wide
  | Ambiguous
  deriving DecidableEq, Repr

/-- Numeric value of each `CharacterWidth` member, as in the Python enum. -/
def CharacterWidth.value : CharacterWidth → Nat
  | .ZeroWidth => 0
  | .Narrow => 1
  | .Wide => 2
  | .Ambiguous => 3

def CLUSTER_BREAK_SHIFT : Nat := 0

def CLUSTER_BREAK_MASK : Nat := 15

def CHARACTER_WIDTH_SHIFT : Nat := 6

def CHARACTER_WIDTH_MASK : Nat := 3

/-- `build_trie_value`, lines 160-163.  The two Python `assert` statements are
modelled by returning `none` when a check fails. -/
def build_trie_value (cb : ClusterBreak) (width : CharacterWidth) : Option Nat :=
  if cb.value ≤ CLUSTER_BREAK_MASK then
    if width.value ≤ CHARACTER_WIDTH_MASK then
      some ((cb.value <<< CLUSTER_BREAK_SHIFT) ||| (width.value <<< CHARACTER_WIDTH_SHIFT))
    else none
  else none

/-- The `INTO_CLUSTER_BREAK(x)` extraction macro emitted at line 314. -/
def INTO_CLUSTER_BREAK (x : Nat) : Nat := (x >>> CLUSTER_BREAK_SHIFT) &&& CLUSTER_BREAK_MASK

/-- The `INTO_CHARACTER_WIDTH(x)` extraction macro emitted at line 315. -/
def INTO_CHARACTER_WIDTH (x : Nat) : Nat := (x >>> CHARACTER_WIDTH_SHIFT) &&& CHARACTER_WIDTH_MASK

/-- The `match char_gcb` table of `main`, lines 212-239.  An unrecognized
grapheme-cluster-break code raises `RuntimeError`, modelled as `Except.error`. -/
def mapGCB (char_gcb : String) : Except String ClusterBreak :=
  if char_gcb = "XX" then .ok .OTHER
  else if char_gcb = "CR" ∨ char_gcb = "LF" ∨ char_gcb = "CN" then .ok .CONTROL
  else if char_gcb = "EX" ∨ char_gcb = "SM" then .ok .EXTEND
  else if char_gcb = "PP" then .ok .PREPEND
  else if char_gcb = "ZWJ" then .ok .ZERO_WIDTH_JOINER
  else if char_gcb = "RI" then .ok .REGIONAL_INDICATOR
  else if char_gcb = "L" then .ok .HANGUL_L
  else if char_gcb = "V" then .ok .HANGUL_V
  else if char_gcb = "T" then .ok .HANGUL_T
  else if char_gcb = "LV" then .ok .HANGUL_LV
  else if char_gcb = "LVT" then .ok .HANGUL_LVT
  else .error ("unrecognized GCB: " ++ char_gcb)

/-- The extended-pictographic override of `main`, lines 241-246.  The Python
`assert cb == ClusterBreak.OTHER` is modelled as `Except.error`. -/
def applyExtPict (char_extpict : String) (cb : ClusterBreak) : Except String ClusterBreak :=
  if char_extpict = "Y" then
    if cb = ClusterBreak.OTHER then .ok .EXTENDED_PICTOGRAPHIC
    else .error "assert cb == ClusterBreak.OTHER"
  else .ok cb

/-- The indic-conjunct-break override of `main`, lines 248-251.  The Python
`assert cb == ClusterBreak.EXTEND` is modelled as `Except.error`. -/
def applyInCB (char_incb : String) (cb : ClusterBreak) : Except String ClusterBreak :=
  if char_incb = "Linker" then
    if cb = ClusterBreak.EXTEND then .ok .CONJUNCT_LINKER
    else .error "assert cb == ClusterBreak.EXTEND"
  else .ok cb

/-- The two overrides in source order: extended-pictographic first
(lines 241-246), then indic-conjunct-break (lines 248-251). -/
def applyGcbOverrides (char_extpict char_incb : String) (cb : ClusterBreak) :
    Except String ClusterBreak :=
  match applyExtPict char_extpict cb with
  | .error msg => .error msg
  | .ok cb2 => applyInCB char_incb cb2

/-- Python's `str.startswith`: does the character sequence of `p` occur as a
prefix of the character sequence of `s`? -/
def startswith (s p : String) : Bool := p.data.isPrefixOf s.data

/-- Width derivation of `main`, lines 253-269: marks are zero-width, then
emoji with emoji-presentation are wide, then the east-asian-width table;
an unrecognized east-asian-width code raises `RuntimeError`. -/
def deriveWidth (char_gc char_emoji char_epres char_ea : String) :
    Except String CharacterWidth :=
  if startswith char_gc "M" then .ok .ZeroWidth
  else if char_emoji = "Y" ∧ char_epres = "Y" then .ok .Wide
  else if char_ea = "N" ∨ char_ea = "Na" ∨ char_ea = "H" then .ok .Narrow
  else if char_ea = "F" ∨ char_ea = "W" then .ok .Wide
  else if char_ea = "A" then .ok .Ambiguous
  else .error ("unrecognized ea: " ++ char_ea)

/-- The whole per-codepoint classification of `main`, lines 208-269: the
grapheme-cluster-break table, the two overrides in order, and the width
derivation. -/
def classify (char_gc char_gcb char_incb char_emoji char_epres char_extpict char_ea :
    String) : Except String (ClusterBreak × CharacterWidth) := do
  let cb ← mapGCB char_gcb
  let cb ← applyGcbOverrides char_extpict char_incb cb
  let width ← deriveWidth char_gc char_emoji char_epres char_ea
  return (cb, width)

/-- Modelled from the spec: ICU's `UMutableCPTrie` (opened at line 189 via
`umutablecptrie_open`; the ICU library itself is not part of this repository).
Per the spec's Sparse Range Accumulator it "collects (start, end, value)
assignments in arrival order, later overwritten by later assignments for
overlapping ranges (last-write-wins)".  We record the initial value, the error
value and the submissions in arrival order; each submission is a triple
`(start, last, value)` with both bounds inclusive. -/
structure UMutableCPTrie where
  initialValue : Nat
  errorValue : Nat
  submissions : List (Nat × Nat × Nat)
  deriving DecidableEq, Repr

/-- Modelled from the spec: `umutablecptrie_open(initialValue, errorValue)`
(wrapper at lines 65-69) creates an empty accumulator. -/
def umutablecptrie_open (initialValue errorValue : Nat) : UMutableCPTrie :=
  ⟨initialValue, errorValue, []⟩

/-- Modelled from the spec: `umutablecptrie_set(trie, c, value)` (wrapper at
lines 78-81) submits the single-codepoint range `[c, c]`. -/
def umutablecptrie_set (t : UMutableCPTrie) (c value : Nat) : UMutableCPTrie :=
  { t with submissions := t.submissions ++ [(c, c, value)] }

/-- Modelled from the spec: `umutablecptrie_setRange(trie, start, last, value)`
(wrapper at lines 90-93) submits the inclusive range `[start, last]`. -/
def umutablecptrie_setRange (t : UMutableCPTrie) (start last value : Nat) :
    UMutableCPTrie :=
  { t with submissions := t.submissions ++ [(start, last, value)] }

/-- Whether submission `s = (start, last, value)` covers codepoint `c`. -/
def covers (s : Nat × Nat × Nat) (c : Nat) : Bool :=
  decide (s.1 ≤ c) && decide (c ≤ s.2.1)

/-- Last-write-wins resolution of a submission list: replay the submissions in
arrival order starting from the default `d`. -/
def lookupSubs (d : Nat) (subs : List (Nat × Nat × Nat)) (c : Nat) : Nat :=
  subs.foldl (fun acc s => if covers s c then s.2.2 else acc) d

/-- Modelled from the spec: looking up a codepoint in the (finalized) trie.
In-range codepoints resolve last-write-wins against the submissions with the
initial value as default; "out-of-range codepoints return the designated
error value". -/
def ucptrie_get (t : UMutableCPTrie) (c : Nat) : Nat :=
  if c ≤ 0x10FFFF then lookupSubs t.initialValue t.submissions c else t.errorValue

/-- The spec's own words for the round-trip property: the value of the last
submission (by submission order) whose range contains `c`, or the default `d`
if none does. -/
def lastMatchValue (d : Nat) (subs : List (Nat × Nat × Nat)) (c : Nat) : Nat :=
  match subs.reverse.find? (fun s => covers s c) with
  | some s => s.2.2
  | none => d

/-- A single trie submission operation of the generator. -/
inductive TrieOp where
  | set (c value : Nat)
  | setRange (start last value : Nat)
  deriving DecidableEq, Repr

/-- Apply one submission operation to the accumulator. -/
def applyOp (t : UMutableCPTrie) : TrieOp → UMutableCPTrie
  | .set c value => umutablecptrie_set t c value
  | .setRange start last value => umutablecptrie_setRange t start last value

/-- Apply a sequence of submission operations in order. -/
def applyOps (t : UMutableCPTrie) (ops : List TrieOp) : UMutableCPTrie :=
  ops.foldl applyOp t

/-- The `(start, last, value)` triple a submission operation stands for. -/
def opRange : TrieOp → Nat × Nat × Nat
  | .set c value => (c, c, value)
  | .setRange start last value => (start, last, value)

/-- `initial_value` of `main`, line 187: the packed pair (Other, Narrow). -/
def initial_value : Nat := (build_trie_value ClusterBreak.OTHER CharacterWidth.Narrow).getD 0

/-- `error_value` of `main`, line 188: the packed pair (Other, Ambiguous). -/
def error_value : Nat := (build_trie_value ClusterBreak.OTHER CharacterWidth.Ambiguous).getD 0

/-- The post-hoc manual override pass of `main`, lines 284-290: three
`umutablecptrie_setRange` calls, each writing the raw value `1`. -/
def applyManualOverrides (t : UMutableCPTrie) : UMutableCPTrie :=
  umutablecptrie_setRange
    (umutablecptrie_setRange
      (umutablecptrie_setRange t 0x2500 0x259F 1)
      0x4DC0 0x4DFF 1)
    0xFE20 0xFE2F 1

/-- The `continue` at lines 272-273: submissions whose value equals the
initial value are skipped.  Dropping them from a submission list. -/
def dropDefaultSubs (d : Nat) (subs : List (Nat × Nat × Nat)) :
    List (Nat × Nat × Nat) :=
  subs.filter (fun s => !(s.2.2 == d))

/-- Two submissions with non-overlapping ranges. -/
def subsDisjoint (a b : Nat × Nat × Nat) : Prop :=
  b.2.1 < a.1 ∨ a.2.1 < b.1

/-! ### Helper lemmas on last-write-wins resolution -/

/-- Replaying submissions none of which covers `c` leaves the accumulator
unchanged. -/
theorem foldl_no_cover (c : Nat) (subs : List (Nat × Nat × Nat)) (acc : Nat)
    (h : ∀ s ∈ subs, covers s c = false) :
    subs.foldl (fun a s => if covers s c then s.2.2 else a) acc = acc := by
  induction subs generalizing acc with
  | nil => rfl
  | cons s rest ih =>
    simp only [List.foldl_cons]
    rw [if_neg (by simp [h s (List.mem_cons_self _ _)]),
      ih acc (fun x hx => h x (List.mem_cons_of_mem _ hx))]

/-- Last-write-wins replay agrees with "value of the last submission whose
range contains `c`, else the default". -/
theorem lookupSubs_eq_lastMatchValue (d : Nat) (subs : List (Nat × Nat × Nat))
    (c : Nat) : lookupSubs d subs c = lastMatchValue d subs c := by
  induction subs generalizing d with
  | nil => rfl
  | cons s rest ih =>
    unfold lookupSubs at ih ⊢
    simp only [List.foldl_cons]
    rw [ih]
    unfold lastMatchValue
    simp only [List.reverse_cons, List.find?_append]
    cases hfind : rest.reverse.find? (fun s => covers s c) with
    | some u => simp [Option.or]
    | none =>
      cases hc : covers s c <;> simp [Option.or, hc]

/-- `applyOps` only appends the operations' ranges to the submission list. -/
theorem applyOps_eq (t : UMutableCPTrie) (ops : List TrieOp) :
    applyOps t ops = { t with submissions := t.submissions ++ ops.map opRange } := by
  induction ops generalizing t with
  | nil => simp [applyOps]
  | cons op rest ih =>
    have h : applyOps t (op :: rest) = applyOps (applyOp t op) rest := rfl
    rw [h, ih]
    cases op <;> simp [applyOp, opRange, umutablecptrie_set, umutablecptrie_setRange]

/-! ### Claim theorems -/

/-- Claim C3: for every `ClusterBreak` member and every `CharacterWidth`
member, `build_trie_value` succeeds (neither assertion fires), returns a value
below 256 whose bits 4-5 are zero, and the emitted `INTO_CLUSTER_BREAK` and
`INTO_CHARACTER_WIDTH` extraction macros recover the two fields. -/
theorem build_trie_value_fields (cb : ClusterBreak) (width : CharacterWidth) :
    ∃ v, build_trie_value cb width = some v ∧ v < 256 ∧ (v >>> 4) &&& 3 = 0 ∧
      INTO_CLUSTER_BREAK v = cb.value ∧ INTO_CHARACTER_WIDTH v = width.value := by
  cases cb <;> cases width <;> exact ⟨_, rfl, by decide⟩

/-- Claim C9: the error value installed at trie creation is the packed pair
(Other, Ambiguous), byte 0xC0 = 192, the initial value is the packed pair
(Other, Narrow), byte 0x40 = 64; they differ, and the `CharacterWidth` field
distinguishes them (Ambiguous vs Narrow). -/
theorem error_value_distinguishable :
    build_trie_value ClusterBreak.OTHER CharacterWidth.Ambiguous = some 192 ∧
    build_trie_value ClusterBreak.OTHER CharacterWidth.Narrow = some 64 ∧
    error_value = 192 ∧ initial_value = 64 ∧ error_value ≠ initial_value ∧
    INTO_CHARACTER_WIDTH error_value = CharacterWidth.Ambiguous.value ∧
    INTO_CHARACTER_WIDTH initial_value = CharacterWidth.Narrow.value := by
  decide

/-- Claim C5: the grapheme-cluster-break table maps the thirteen recognized
codes exactly as listed, and `mapGCB` fails if and only if the code is none of
them. -/
theorem mapGCB_table (gcb : String) :
    (gcb = "XX" → mapGCB gcb = .ok .OTHER) ∧
    ((gcb = "CR" ∨ gcb = "LF" ∨ gcb = "CN") → mapGCB gcb = .ok .CONTROL) ∧
    ((gcb = "EX" ∨ gcb = "SM") → mapGCB gcb = .ok .EXTEND) ∧
    (gcb = "PP" → mapGCB gcb = .ok .PREPEND) ∧
    (gcb = "ZWJ" → mapGCB gcb = .ok .ZERO_WIDTH_JOINER) ∧
    (gcb = "RI" → mapGCB gcb = .ok .REGIONAL_INDICATOR) ∧
    (gcb = "L" → mapGCB gcb = .ok .HANGUL_L) ∧
    (gcb = "V" → mapGCB gcb = .ok .HANGUL_V) ∧
    (gcb = "T" → mapGCB gcb = .ok .HANGUL_T) ∧
    (gcb = "LV" → mapGCB gcb = .ok .HANGUL_LV) ∧
    (gcb = "LVT" → mapGCB gcb = .ok .HANGUL_LVT) ∧
    ((∃ msg, mapGCB gcb = .error msg) ↔
      (gcb ≠ "XX" ∧ gcb ≠ "CR" ∧ gcb ≠ "LF" ∧ gcb ≠ "CN" ∧ gcb ≠ "EX" ∧
       gcb ≠ "SM" ∧ gcb ≠ "PP" ∧ gcb ≠ "ZWJ" ∧ gcb ≠ "RI" ∧ gcb ≠ "L" ∧
       gcb ≠ "V" ∧ gcb ≠ "T" ∧ gcb ≠ "LV" ∧ gcb ≠ "LVT")) := by
  refine ⟨fun h => by subst h; rfl,
    fun h => by rcases h with rfl | rfl | rfl <;> rfl,
    fun h => by rcases h with rfl | rfl <;> rfl,
    fun h => by subst h; rfl,
    fun h => by subst h; rfl,
    fun h => by subst h; rfl,
    fun h => by subst h; rfl,
    fun h => by subst h; rfl,
    fun h => by subst h; rfl,
    fun h => by subst h; rfl,
    fun h => by subst h; rfl,
    ?_, ?_⟩
  · rintro ⟨msg, hmsg⟩
    refine ⟨?_, ?_, ?_, ?_, ?_, ?_, ?_, ?_, ?_, ?_, ?_, ?_, ?_, ?_⟩
    · rintro rfl
      rw [show mapGCB "XX" = Except.ok ClusterBreak.OTHER from rfl] at hmsg
      exact Except.noConfusion hmsg
    · rintro rfl
      rw [show mapGCB "CR" = Except.ok ClusterBreak.CONTROL from rfl] at hmsg
      exact Except.noConfusion hmsg
    · rintro rfl
      rw [show mapGCB "LF" = Except.ok ClusterBreak.CONTROL from rfl] at hmsg
      exact Except.noConfusion hmsg
    · rintro rfl
      rw [show mapGCB "CN" = Except.ok ClusterBreak.CONTROL from rfl] at hmsg
      exact Except.noConfusion hmsg
    · rintro rfl
      rw [show mapGCB "EX" = Except.ok ClusterBreak.EXTEND from rfl] at hmsg
      exact Except.noConfusion hmsg
    · rintro rfl
      rw [show mapGCB "SM" = Except.ok ClusterBreak.EXTEND from rfl] at hmsg
      exact Except.noConfusion hmsg
    · rintro rfl
      rw [show mapGCB "PP" = Except.ok ClusterBreak.PREPEND from rfl] at hmsg
      exact Except.noConfusion hmsg
    · rintro rfl
      rw [show mapGCB "ZWJ" = Except.ok ClusterBreak.ZERO_WIDTH_JOINER from rfl] at hmsg
      exact Except.noConfusion hmsg
    · rintro rfl
      rw [show mapGCB "RI" = Except.ok ClusterBreak.REGIONAL_INDICATOR from rfl] at hmsg
      exact Except.noConfusion hmsg
    · rintro rfl
      rw [show mapGCB "L" = Except.ok ClusterBreak.HANGUL_L from rfl] at hmsg
      exact Except.noConfusion hmsg
    · rintro rfl
      rw [show mapGCB "V" = Except.ok ClusterBreak.HANGUL_V from rfl] at hmsg
      exact Except.noConfusion hmsg
    · rintro rfl
      rw [show mapGCB "T" = Except.ok ClusterBreak.HANGUL_T from rfl] at hmsg
      exact Except.noConfusion hmsg
    · rintro rfl
      rw [show mapGCB "LV" = Except.ok ClusterBreak.HANGUL_LV from rfl] at hmsg
      exact Except.noConfusion hmsg
    · rintro rfl
      rw [show mapGCB "LVT" = Except.ok ClusterBreak.HANGUL_LVT from rfl] at hmsg
      exact Except.noConfusion hmsg
  · rintro ⟨h1, h2, h3, h4, h5, h6, h7, h8, h9, h10, h11, h12, h13, h14⟩
    unfold mapGCB
    rw [if_neg h1, if_neg (by tauto), if_neg (by tauto), if_neg h7, if_neg h8,
      if_neg h9, if_neg h10, if_neg h11, if_neg h12, if_neg h13, if_neg h14]
    exact ⟨_, rfl⟩

/-- Witness for claim C5 at the concrete codes "LV" (recognized) and "QQ"
(unrecognized). -/
theorem mapGCB_table_witness :
    mapGCB "LV" = .ok .HANGUL_LV ∧ (∃ msg, mapGCB "QQ" = .error msg) :=
  ⟨(mapGCB_table "LV").2.2.2.2.2.2.2.2.2.1 rfl,
   ((mapGCB_table "QQ").2.2.2.2.2.2.2.2.2.2.2).2 (by decide)⟩

/-- Claim C4: width derivation follows the priority order mark → emoji with
emoji presentation → east-asian-width table, and `deriveWidth` fails if and
only if, in the third branch, the east-asian-width code is none of
N, Na, H, F, W, A. -/
theorem deriveWidth_priority (gc emoji epres ea : String) :
    (startswith gc "M" = true → deriveWidth gc emoji epres ea = .ok .ZeroWidth) ∧
    (startswith gc "M" = false → emoji = "Y" → epres = "Y" →
      deriveWidth gc emoji epres ea = .ok .Wide) ∧
    (startswith gc "M" = false → ¬(emoji = "Y" ∧ epres = "Y") →
      ((ea = "N" ∨ ea = "Na" ∨ ea = "H") → deriveWidth gc emoji epres ea = .ok .Narrow) ∧
      ((ea = "F" ∨ ea = "W") → deriveWidth gc emoji epres ea = .ok .Wide) ∧
      (ea = "A" → deriveWidth gc emoji epres ea = .ok .Ambiguous)) ∧
    ((∃ msg, deriveWidth gc emoji epres ea = .error msg) ↔
      (startswith gc "M" = false ∧ ¬(emoji = "Y" ∧ epres = "Y") ∧
       ea ≠ "N" ∧ ea ≠ "Na" ∧ ea ≠ "H" ∧ ea ≠ "F" ∧ ea ≠ "W" ∧ ea ≠ "A")) := by
  refine ⟨?_, ?_, ?_, ?_, ?_⟩
  · intro h
    unfold deriveWidth
    rw [if_pos h]
  · intro h1 h2 h3
    unfold deriveWidth
    rw [if_neg (by simp [h1]), if_pos ⟨h2, h3⟩]
  · intro h1 h2
    refine ⟨?_, ?_, ?_⟩
    · intro hea
      unfold deriveWidth
      rw [if_neg (by simp [h1]), if_neg h2, if_pos hea]
    · intro hea
      rcases hea with rfl | rfl <;>
        (unfold deriveWidth
         rw [if_neg (by simp [h1]), if_neg h2, if_neg (by decide), if_pos (by decide)])
    · intro hea
      subst hea
      unfold deriveWidth
      rw [if_neg (by simp [h1]), if_neg h2, if_neg (by decide), if_neg (by decide),
        if_pos rfl]
  · rintro ⟨msg, hmsg⟩
    unfold deriveWidth at hmsg
    split_ifs at hmsg with h1 h2 h3 h4 h5
    push_neg at h3 h4
    exact ⟨by simpa using h1, h2, h3.1, h3.2.1, h3.2.2, h4.1, h4.2, h5⟩
  · rintro ⟨hM, hY, hN, hNa, hH, hF, hW, hA⟩
    unfold deriveWidth
    rw [if_neg (by simp [hM]), if_neg hY, if_neg (by tauto), if_neg (by tauto),
      if_neg hA]
    exact ⟨_, rfl⟩

/-- Witness for claim C4 at concrete attributes: a mark ("Mn"), a presented
emoji, the east-asian table, and an unrecognized east-asian code. -/
theorem deriveWidth_priority_witness :
    deriveWidth "Mn" "N" "N" "A" = .ok .ZeroWidth ∧
    deriveWidth "So" "Y" "Y" "N" = .ok .Wide ∧
    deriveWidth "Lu" "N" "N" "Na" = .ok .Narrow ∧
    (∃ msg, deriveWidth "Lu" "N" "N" "ZZ" = .error msg) :=
  ⟨(deriveWidth_priority "Mn" "N" "N" "A").1 (by decide),
   (deriveWidth_priority "So" "Y" "Y" "N").2.1 (by decide) rfl rfl,
   ((deriveWidth_priority "Lu" "N" "N" "Na").2.2.1 (by decide) (by decide)).1 (by decide),
   (deriveWidth_priority "Lu" "N" "N" "ZZ").2.2.2.2 (by decide)⟩

/-- Claim C6: the extended-pictographic override asserts the current
ClusterBreak is Other and reassigns it to ExtendedPictographic; the
indic-conjunct-break override asserts the ClusterBreak at that point is Extend
and reassigns it to ConjunctLinker; and the ExtPict check runs before the InCB
check (its assertion failure wins regardless of the InCB code). -/
theorem gcb_override_assertions (extpict incb : String) (cb : ClusterBreak) :
    (extpict = "Y" → cb ≠ ClusterBreak.OTHER →
      applyGcbOverrides extpict incb cb = .error "assert cb == ClusterBreak.OTHER") ∧
    (extpict = "Y" → applyExtPict extpict cb =
      (if cb = ClusterBreak.OTHER then .ok ClusterBreak.EXTENDED_PICTOGRAPHIC
       else .error "assert cb == ClusterBreak.OTHER")) ∧
    (extpict ≠ "Y" → applyExtPict extpict cb = .ok cb) ∧
    (incb = "Linker" → applyInCB incb cb =
      (if cb = ClusterBreak.EXTEND then .ok ClusterBreak.CONJUNCT_LINKER
       else .error "assert cb == ClusterBreak.EXTEND")) ∧
    (incb ≠ "Linker" → applyInCB incb cb = .ok cb) ∧
    (extpict = "Y" → cb = ClusterBreak.OTHER → incb ≠ "Linker" →
      applyGcbOverrides extpict incb cb = .ok ClusterBreak.EXTENDED_PICTOGRAPHIC) ∧
    (extpict ≠ "Y" → incb = "Linker" → cb = ClusterBreak.EXTEND →
      applyGcbOverrides extpict incb cb = .ok ClusterBreak.CONJUNCT_LINKER) ∧
    (extpict ≠ "Y" → incb = "Linker" → cb ≠ ClusterBreak.EXTEND →
      applyGcbOverrides extpict incb cb = .error "assert cb == ClusterBreak.EXTEND") := by
  unfold applyGcbOverrides applyExtPict applyInCB
  split_ifs <;> simp_all

/-- Witness for claim C6: with ExtPict = "Y", InCB = "Linker" and a Control
base, the failure is the ExtPict assertion (checked first). -/
theorem gcb_override_assertions_witness :
    applyGcbOverrides "Y" "Linker" ClusterBreak.CONTROL =
      .error "assert cb == ClusterBreak.OTHER" :=
  (gcb_override_assertions "Y" "Linker" ClusterBreak.CONTROL).1 rfl (by decide)

/-- Claim C2: for any finite sequence of `umutablecptrie_set` and
`umutablecptrie_setRange` submissions and any codepoint `c` in
`[0, 0x10FFFF]`, the finalized trie resolves `c` to the value of the last
submission whose range contains `c`, or the initial value if none does. -/
theorem trie_last_write_wins (i e : Nat) (ops : List TrieOp) (c : Nat)
    (h : c ≤ 0x10FFFF) :
    ucptrie_get (applyOps (umutablecptrie_open i e) ops) c
      = lastMatchValue i (ops.map opRange) c := by
  rw [applyOps_eq]
  unfold ucptrie_get
  rw [if_pos h]
  simpa [umutablecptrie_open] using
    lookupSubs_eq_lastMatchValue i (ops.map opRange) c

/-- Witness for claim C2: a range submission followed by an overlapping
single-codepoint submission; the later one wins. -/
theorem trie_last_write_wins_witness :
    ucptrie_get (applyOps (umutablecptrie_open 64 192)
        [TrieOp.setRange 0 10 5, TrieOp.set 3 7]) 3
      = lastMatchValue 64 ([TrieOp.setRange 0 10 5, TrieOp.set 3 7].map opRange) 3 :=
  trie_last_write_wins 64 192 [TrieOp.setRange 0 10 5, TrieOp.set 3 7] 3 (by decide)

/-- Claim C7: every codepoint in `[0, 0x10FFFF]` that no submission covers
resolves to the initial value (the packed (Other, Narrow) default — there is
no unset sentinel), and every query outside `[0, 0x10FFFF]` returns the error
value installed at trie creation. -/
theorem trie_totality (ops : List TrieOp) (c : Nat) :
    (c ≤ 0x10FFFF → (∀ s ∈ ops.map opRange, covers s c = false) →
      ucptrie_get (applyOps (umutablecptrie_open initial_value error_value) ops) c
        = initial_value) ∧
    (0x10FFFF < c →
      ucptrie_get (applyOps (umutablecptrie_open initial_value error_value) ops) c
        = error_value) := by
  constructor
  · intro h hnc
    rw [applyOps_eq]
    unfold ucptrie_get
    rw [if_pos h]
    simpa [umutablecptrie_open, lookupSubs] using
      foldl_no_cover c (ops.map opRange) initial_value hnc
  · intro h
    rw [applyOps_eq]
    unfold ucptrie_get
    rw [if_neg (by omega)]
    rfl

/-- Witness for claim C7: a trie with one submission at U+0041, queried at
the uncovered U+0042 and at the out-of-range 0x110000. -/
theorem trie_totality_witness :
    ucptrie_get (applyOps (umutablecptrie_open initial_value error_value)
        [TrieOp.set 0x41 7]) 0x42 = initial_value ∧
    ucptrie_get (applyOps (umutablecptrie_open initial_value error_value)
        [TrieOp.set 0x41 7]) 0x110000 = error_value :=
  ⟨(trie_totality [TrieOp.set 0x41 7] 0x42).1 (by decide) (by decide),
   (trie_totality [TrieOp.set 0x41 7] 0x110000).2 (by decide)⟩

/-- Claim C10: the post-hoc manual override pass leaves every codepoint
outside `[0x2500, 0x259F] ∪ [0x4DC0, 0x4DFF] ∪ [0xFE20, 0xFE2F]` at the value
the trie resolved before the pass. -/
theorem manual_overrides_frame (t : UMutableCPTrie) (c : Nat) (h1 : c ≤ 0x10FFFF)
    (h2 : ¬((0x2500 ≤ c ∧ c ≤ 0x259F) ∨ (0x4DC0 ≤ c ∧ c ≤ 0x4DFF) ∨
            (0xFE20 ≤ c ∧ c ≤ 0xFE2F))) :
    ucptrie_get (applyManualOverrides t) c = ucptrie_get t c := by
  unfold applyManualOverrides umutablecptrie_setRange ucptrie_get lookupSubs
  rw [if_pos h1, if_pos h1]
  simp only [List.foldl_append, List.foldl_cons, List.foldl_nil]
  rw [if_neg (by simp [covers]; omega), if_neg (by simp [covers]; omega),
    if_neg (by simp [covers]; omega)]

/-- Witness for claim C10 at U+0041, outside all three override ranges. -/
theorem manual_overrides_frame_witness :
    ucptrie_get (applyManualOverrides (umutablecptrie_open initial_value error_value))
        0x41
      = ucptrie_get (umutablecptrie_open initial_value error_value) 0x41 :=
  manual_overrides_frame (umutablecptrie_open initial_value error_value) 0x41
    (by decide) (by decide)

/-- Claim C1 evaluated on the code: the post-hoc override pass stores the raw
value 1 over all three ranges, and the emitted `INTO_CHARACTER_WIDTH` macro
extracts ZeroWidth (0), not Narrow (1), from that value — while
`INTO_CLUSTER_BREAK` extracts Control (1). -/
theorem manual_overrides_store_one (t : UMutableCPTrie) (c : Nat)
    (h : (0x2500 ≤ c ∧ c ≤ 0x259F) ∨ (0x4DC0 ≤ c ∧ c ≤ 0x4DFF) ∨
         (0xFE20 ≤ c ∧ c ≤ 0xFE2F)) :
    ucptrie_get (applyManualOverrides t) c = 1 ∧
    INTO_CHARACTER_WIDTH 1 = CharacterWidth.ZeroWidth.value ∧
    INTO_CLUSTER_BREAK 1 = ClusterBreak.CONTROL.value ∧
    INTO_CHARACTER_WIDTH 1 ≠ CharacterWidth.Narrow.value := by
  refine ⟨?_, by decide, by decide, by decide⟩
  have hc : c ≤ 0x10FFFF := by omega
  unfold applyManualOverrides umutablecptrie_setRange ucptrie_get lookupSubs
  rw [if_pos hc]
  simp only [List.foldl_append, List.foldl_cons, List.foldl_nil]
  rcases h with ⟨ha, hb⟩ | ⟨ha, hb⟩ | ⟨ha, hb⟩
  · rw [if_neg (by simp [covers]; omega), if_neg (by simp [covers]; omega),
      if_pos (by simp [covers]; omega)]
  · rw [if_neg (by simp [covers]; omega), if_pos (by simp [covers]; omega)]
  · rw [if_pos (by simp [covers]; omega)]

/-- Witness for claim C1's evaluation at U+2500 (box drawing light
horizontal). -/
theorem manual_overrides_store_one_witness :
    ucptrie_get (applyManualOverrides (umutablecptrie_open initial_value error_value))
        0x2500 = 1 ∧
    INTO_CHARACTER_WIDTH 1 = CharacterWidth.ZeroWidth.value ∧
    INTO_CLUSTER_BREAK 1 = ClusterBreak.CONTROL.value ∧
    INTO_CHARACTER_WIDTH 1 ≠ CharacterWidth.Narrow.value :=
  manual_overrides_store_one (umutablecptrie_open initial_value error_value) 0x2500
    (by decide)

/-- Claim C8 as stated is false: under last-write-wins, a default-valued
submission overlapping an earlier non-default one is not a no-op.  Concrete
counterexample: submit `[0, 10] ↦ 5` then `[0, 10] ↦ 64` (the default);
codepoint 3 resolves to 64 with both submissions applied but to 5 with the
default-valued one dropped. -/
theorem skip_default_counterexample :
    ¬ (lookupSubs initial_value [(0, 10, 5), (0, 10, initial_value)] 3
       = lookupSubs initial_value
           (dropDefaultSubs initial_value [(0, 10, 5), (0, 10, initial_value)]) 3) := by
  decide

/-- Claim C8 (amended): when the submitted ranges are pairwise disjoint — as
in the bulk UCD pass, whose per-character entries do not overlap — dropping
the submissions whose value equals the default never changes the resolved
value at any codepoint in `[0, 0x10FFFF]`. -/
theorem skip_default_noop_of_disjoint (d : Nat) (subs : List (Nat × Nat × Nat))
    (c : Nat) (hc : c ≤ 0x10FFFF) (hdisj : List.Pairwise subsDisjoint subs) :
    lookupSubs d subs c = lookupSubs d (dropDefaultSubs d subs) c := by
  induction hdisj with
  | nil => rfl
  | @cons s rest hhead htail ih =>
    have hfilter :
        dropDefaultSubs d (s :: rest)
          = if !(s.2.2 == d) then s :: dropDefaultSubs d rest
            else dropDefaultSubs d rest := List.filter_cons
    by_cases hcov : covers s c = true
    · by_cases hval : s.2.2 = d
      · have hdrop : dropDefaultSubs d (s :: rest) = dropDefaultSubs d rest := by
          rw [hfilter, hval]
          simp
        rw [hdrop]
        unfold lookupSubs at ih ⊢
        simp only [List.foldl_cons]
        rw [if_pos hcov, hval]
        exact ih
      · have hkeep : dropDefaultSubs d (s :: rest) = s :: dropDefaultSubs d rest := by
          rw [hfilter]
          simp [hval]
        have hnc : ∀ b ∈ rest, covers b c = false := by
          intro b hb
          have hd := hhead b hb
          unfold subsDisjoint at hd
          simp only [covers, Bool.and_eq_true, decide_eq_true_eq] at hcov
          simp only [covers]
          simp only [Bool.and_eq_false_imp, decide_eq_true_eq, decide_eq_false_iff_not]
          omega
        have hnc2 : ∀ b ∈ dropDefaultSubs d rest, covers b c = false := fun b hb =>
          hnc b (List.mem_of_mem_filter hb)
        rw [hkeep]
        unfold lookupSubs
        simp only [List.foldl_cons]
        rw [if_pos hcov, foldl_no_cover c rest _ hnc, foldl_no_cover c _ _ hnc2]
    · have hLHS : lookupSubs d (s :: rest) c = lookupSubs d rest c := by
        unfold lookupSubs
        simp only [List.foldl_cons]
        rw [if_neg (by simp [hcov])]
      by_cases hval : s.2.2 = d
      · have hdrop : dropDefaultSubs d (s :: rest) = dropDefaultSubs d rest := by
          rw [hfilter, hval]
          simp
        rw [hLHS, hdrop]
        exact ih
      · have hkeep : dropDefaultSubs d (s :: rest) = s :: dropDefaultSubs d rest := by
          rw [hfilter]
          simp [hval]
        rw [hLHS, hkeep]
        unfold lookupSubs
        simp only [List.foldl_cons]
        rw [if_neg (by simp [hcov])]
        exact ih

/-- Witness for claim C8's amended statement: two disjoint submissions, the
second default-valued; dropping it does not change the resolved value. -/
theorem skip_default_noop_witness :
    lookupSubs initial_value [(0, 10, 5), (20, 30, initial_value)] 25
      = lookupSubs initial_value
          (dropDefaultSubs initial_value [(0, 10, 5), (20, 30, initial_value)]) 25 :=
  skip_default_noop_of_disjoint initial_value [(0, 10, 5), (20, 30, initial_value)] 25
    (by decide) (by simp [subsDisjoint])

end CodepointWidthDetector
